import Mathlib

/-!
Shallow embedding of the orchestration notebook
`quicksight-sagemaker-integration/customer_churn.ipynb` and proofs about it.

The notebook's data-handling cell is
`np.split(churn.sample(frac=1, random_state=1729), [int(0.7*len(churn)), int(0.9*len(churn))])`
followed by `to_csv` calls; the rest of the notebook is a linear sequence of
SDK job submissions and a final `create_model` call.  Each piece is embedded
as a pure Lean function below, in notebook order.
-/

namespace ChurnNotebook

/-! ## Splitter (notebook cell 9) -/

/-- Model of `np.split xs [a, b]`: the slices `xs[0:a]`, `xs[a:b]`, `xs[b:]`. -/
def npSplit3 {α : Type} (xs : List α) (a b : Nat) : List α × List α × List α :=
  (xs.take a, (xs.drop a).take (b - a), xs.drop b)

/-- One step of a linear congruential generator, standing in for the
pandas/numpy pseudo-random generator state evolution.  Any deterministic
function works here: the notebook only relies on the generator being a
deterministic function of the seed. -/
def lcgNext (s : Nat) : Nat := (1103515245 * s + 12345) % 2147483648

/-- Deterministic seed-driven shuffle modelling
`churn.sample(frac=1, random_state=seed)`: repeatedly pick the next index
from the generator and move that row to the front of the output. -/
def shuffleWith {α : Type} : Nat → List α → List α
  | _, [] => []
  | seed, x :: xs =>
    have h : seed % (x :: xs).length < (x :: xs).length :=
      Nat.mod_lt _ (Nat.succ_pos _)
    (x :: xs).get ⟨seed % (x :: xs).length, h⟩ ::
      shuffleWith (lcgNext seed) ((x :: xs).eraseIdx (seed % (x :: xs).length))
termination_by _ l => l.length
decreasing_by
  rw [List.length_eraseIdx_of_lt h]
  simp

/-- Model of `int(f * n)` for a nonnegative fraction `f = num/den`: Python `int`
truncates toward zero, which on rationals of this form is Nat division. -/
def splitBoundary (num den n : Nat) : Nat := num * n / den

/-- The splitter with an explicit seed and split fractions
`(pNum/den, qNum/den)`: shuffle, then `np.split` at
`int(p*n)` and `int((p+q)*n)`. -/
def runSplitter {α : Type} (seed pNum qNum den : Nat) (churn : List α) :
    List α × List α × List α :=
  npSplit3 (shuffleWith seed churn) (splitBoundary pNum den churn.length)
    (splitBoundary (pNum + qNum) den churn.length)

/-- The `random_state` resolution of `DataFrame.sample`: an explicit
`random_state` makes the ambient generator entropy irrelevant. -/
def resolveRandomState (entropy : Nat) (randomState : Option Nat) : Nat :=
  randomState.getD entropy

/-- The notebook's split cell: `random_state=1729`, fractions `(0.7, 0.2)`,
i.e. boundaries `int(0.7*n)` and `int(0.9*n)`. -/
def splitCell {α : Type} (entropy : Nat) (churn : List α) :
    List α × List α × List α :=
  runSplitter (resolveRandomState entropy (some 1729)) 7 2 10 churn

/-! ### Splitter lemmas -/

theorem cons_eraseIdx_perm {α : Type} (l : List α) (i : Nat) (h : i < l.length) :
    (l.get ⟨i, h⟩ :: l.eraseIdx i).Perm l := by
  rw [List.eraseIdx_eq_take_drop_succ]
  refine List.Perm.trans List.perm_middle.symm ?_
  rw [List.get_eq_getElem, List.getElem_cons_drop, List.take_append_drop]

theorem shuffleWith_perm_aux {α : Type} :
    ∀ (n seed : Nat) (l : List α), l.length ≤ n → (shuffleWith seed l).Perm l
  | _, _, [], _ => by simp [shuffleWith]
  | 0, _, x :: xs, h => absurd h (by simp)
  | Nat.succ n, seed, x :: xs, h => by
    rw [shuffleWith]
    refine List.Perm.trans (List.Perm.cons _ (shuffleWith_perm_aux n _ _ ?_)) ?_
    · rw [List.length_eraseIdx_of_lt (Nat.mod_lt _ (by simp))]
      simpa using Nat.le_of_succ_le_succ h
    · exact cons_eraseIdx_perm _ _ _

/-- The model shuffle is a permutation of its input, as
`sample(frac=1)` is. -/
theorem shuffleWith_perm {α : Type} (seed : Nat) (l : List α) :
    (shuffleWith seed l).Perm l :=
  shuffleWith_perm_aux l.length seed l le_rfl

theorem shuffleWith_length {α : Type} (seed : Nat) (l : List α) :
    (shuffleWith seed l).length = l.length :=
  (shuffleWith_perm seed l).length_eq

theorem npSplit3_append {α : Type} (xs : List α) (a b : Nat) (hab : a ≤ b) :
    (npSplit3 xs a b).1 ++ ((npSplit3 xs a b).2.1 ++ (npSplit3 xs a b).2.2) = xs := by
  simp only [npSplit3]
  have hdrop : xs.drop b = (xs.drop a).drop (b - a) := by
    rw [List.drop_drop]
    congr 1
    omega
  rw [hdrop, List.take_append_drop, List.take_append_drop]

theorem splitBoundary_mono {pNum qNum den n : Nat} :
    splitBoundary pNum den n ≤ splitBoundary (pNum + qNum) den n :=
  Nat.div_le_div_right (Nat.mul_le_mul_right n (Nat.le_add_right _ _))

theorem runSplitter_append {α : Type} (seed pNum qNum den : Nat) (churn : List α) :
    (runSplitter seed pNum qNum den churn).1 ++
      ((runSplitter seed pNum qNum den churn).2.1 ++
        (runSplitter seed pNum qNum den churn).2.2) =
      shuffleWith seed churn := by
  exact npSplit3_append _ _ _ splitBoundary_mono

/-- C1: for every input record set (rows are pairwise distinct, as pandas
rows carry a unique index), every seed and any split fractions, the three
partitions produced by the splitter are pairwise disjoint, their union is
the original record set, and every record appears in exactly one
partition. -/
theorem splitter_partitions_exact {α : Type} [DecidableEq α]
    (seed pNum qNum den : Nat) (churn : List α) (hnd : churn.Nodup) :
    ((runSplitter seed pNum qNum den churn).1.Disjoint
        (runSplitter seed pNum qNum den churn).2.1 ∧
      (runSplitter seed pNum qNum den churn).1.Disjoint
        (runSplitter seed pNum qNum den churn).2.2 ∧
      (runSplitter seed pNum qNum den churn).2.1.Disjoint
        (runSplitter seed pNum qNum den churn).2.2) ∧
    (∀ r, r ∈ churn ↔
      (r ∈ (runSplitter seed pNum qNum den churn).1 ∨
        r ∈ (runSplitter seed pNum qNum den churn).2.1 ∨
        r ∈ (runSplitter seed pNum qNum den churn).2.2)) ∧
    (∀ r ∈ churn,
      (runSplitter seed pNum qNum den churn).1.count r +
        (runSplitter seed pNum qNum den churn).2.1.count r +
        (runSplitter seed pNum qNum den churn).2.2.count r = 1) := by
  have happ := runSplitter_append seed pNum qNum den churn
  have hperm : ((runSplitter seed pNum qNum den churn).1 ++
      ((runSplitter seed pNum qNum den churn).2.1 ++
        (runSplitter seed pNum qNum den churn).2.2)).Perm churn := by
    rw [happ]
    exact shuffleWith_perm seed churn
  have hndall := hperm.symm.nodup hnd
  rw [List.nodup_append] at hndall
  obtain ⟨h1, h2, h3⟩ := hndall
  rw [List.nodup_append] at h2
  rw [List.disjoint_append_right] at h3
  refine ⟨⟨h3.1, h3.2, h2.2.2⟩, ?_, ?_⟩
  · intro r
    rw [← hperm.mem_iff]
    simp [List.mem_append]
  · intro r hr
    have hc := hperm.count_eq r
    rw [List.count_append, List.count_append] at hc
    rw [List.count_eq_one_of_mem hnd hr] at hc
    omega

theorem splitter_partitions_exact_witness :
    ([0, 1, 2, 3, 4] : List Nat).Nodup ∧
    ∀ r ∈ ([0, 1, 2, 3, 4] : List Nat),
      (runSplitter 1729 7 2 10 [0, 1, 2, 3, 4]).1.count r +
        (runSplitter 1729 7 2 10 [0, 1, 2, 3, 4]).2.1.count r +
        (runSplitter 1729 7 2 10 [0, 1, 2, 3, 4]).2.2.count r = 1 :=
  ⟨by decide, (splitter_partitions_exact 1729 7 2 10 [0, 1, 2, 3, 4] (by decide)).2.2⟩

/-- C2 (amended): with an input of exactly 3333 records and fractions
(0.7, 0.2), the boundaries are int(0.7*3333) = 2333 and
int(0.9*3333) = 2999, so the train partition has 2333 records, the
validation partition 666 and the test partition the remaining 334. -/
theorem splitter_sizes_3333 {α : Type} (seed : Nat) (churn : List α)
    (h : churn.length = 3333) :
    splitBoundary 7 10 churn.length = 2333 ∧
    splitBoundary 9 10 churn.length = 2999 ∧
    (runSplitter seed 7 2 10 churn).1.length = 2333 ∧
    (runSplitter seed 7 2 10 churn).2.1.length = 666 ∧
    (runSplitter seed 7 2 10 churn).2.2.length = 334 := by
  simp [runSplitter, npSplit3, splitBoundary, shuffleWith_length, h]

theorem splitter_sizes_3333_witness :
    (List.range 3333).length = 3333 ∧
    (runSplitter 0 7 2 10 (List.range 3333)).2.1.length = 666 :=
  ⟨by simp, (splitter_sizes_3333 0 (List.range 3333) (by simp)).2.2.2.1⟩

/-- C2 as literally stated is false: at a concrete 3333-record input the
validation partition has 666 records, not 667
(int(0.9*3333) - int(0.7*3333) = 2999 - 2333 = 666). -/
theorem splitter_validation_666_not_667 :
    (runSplitter 1729 7 2 10 (List.range 3333)).2.1.length = 666 ∧
    ¬ (runSplitter 1729 7 2 10 (List.range 3333)).2.1.length = 667 := by
  have h : (runSplitter 1729 7 2 10 (List.range 3333)).2.1.length = 666 := by
    simp [runSplitter, npSplit3, splitBoundary, shuffleWith_length]
  exact ⟨h, by omega⟩

/-- C3: the split cell fixes random_state = 1729, so the ambient generator
entropy is irrelevant: two runs on the same input produce identical train,
validation and test partitions, in the same shuffled order. -/
theorem splitCell_deterministic {α : Type} (e₁ e₂ : Nat) (churn : List α) :
    splitCell e₁ churn = splitCell e₂ churn := rfl

/-! ## CSV outputs of the split cell (notebook cell 9, `to_csv` lines) -/

/-- A pandas DataFrame restricted to what the notebook uses: an ordered list
of column names and rows of string fields, one field per column. -/
structure DataFrame where
  columns : List String
  rows : List (List String)

/-- Model of `df.drop(c, axis=1)`: remove the column named `c` (located by its index
in the header) from the header and from every row. -/
def dropColumn (df : DataFrame) (c : String) : DataFrame :=
  { columns := df.columns.eraseIdx (df.columns.indexOf c),
    rows := df.rows.map (fun r => r.eraseIdx (df.columns.indexOf c)) }

/-- Model of `df.to_csv(..., header=h, index=False)`: the written lines, one list of
fields per line, with the header line first when `h` is true. -/
def toCsvLines (df : DataFrame) (header : Bool) : List (List String) :=
  (if header then [df.columns] else []) ++ df.rows

/-- The three files written by the split cell: `train.csv` and
`validation.csv` with `header=False`, and `test.csv` from
`test_data.drop("Churn?", axis=1)` with `header=True`. -/
def splitCellFiles (entropy : Nat) (churn : DataFrame) :
    List (List String) × List (List String) × List (List String) :=
  ((toCsvLines ⟨churn.columns, (splitCell entropy churn.rows).1⟩ false),
    (toCsvLines ⟨churn.columns, (splitCell entropy churn.rows).2.1⟩ false),
    (toCsvLines (dropColumn ⟨churn.columns, (splitCell entropy churn.rows).2.2⟩ "Churn?") true))

theorem indexOf_label {fc : List String} (hfc : "Churn?" ∉ fc) :
    (fc ++ ["Churn?"]).indexOf "Churn?" = fc.length := by
  rw [List.indexOf_append_of_not_mem hfc, List.indexOf_cons_self]
  omega

theorem eraseIdx_last_of_length {r : List String} {k : Nat} (h : r.length = k + 1) :
    r.eraseIdx k = r.dropLast :=
  (List.dropLast_eq_eraseIdx (by omega)).symm

theorem splitCell_subset {α : Type} (entropy : Nat) (l : List α) :
    (∀ r ∈ (splitCell entropy l).1, r ∈ l) ∧
    (∀ r ∈ (splitCell entropy l).2.1, r ∈ l) ∧
    (∀ r ∈ (splitCell entropy l).2.2, r ∈ l) := by
  simp only [splitCell, runSplitter, npSplit3]
  refine ⟨fun r hr => ?_, fun r hr => ?_, fun r hr => ?_⟩
  · exact (shuffleWith_perm _ _).mem_iff.mp (List.mem_of_mem_take hr)
  · exact (shuffleWith_perm _ _).mem_iff.mp
      (List.mem_of_mem_drop (List.mem_of_mem_take hr))
  · exact (shuffleWith_perm _ _).mem_iff.mp (List.mem_of_mem_drop hr)

/-- C4: for every input dataset whose last column is the label "Churn?",
the test CSV has a header row (the feature columns, which exclude the
label) and its data rows drop the label field, while the train and
validation CSVs have no header row and keep every field of their rows,
the label being the last field (the field under the "Churn?" column). -/
theorem csv_label_policy (entropy : Nat) (churn : DataFrame) (fc : List String)
    (hcols : churn.columns = fc ++ ["Churn?"])
    (hfc : "Churn?" ∉ fc)
    (hrows : ∀ r ∈ churn.rows, r.length = churn.columns.length) :
    (splitCellFiles entropy churn).1 = (splitCell entropy churn.rows).1 ∧
    (splitCellFiles entropy churn).2.1 = (splitCell entropy churn.rows).2.1 ∧
    (splitCellFiles entropy churn).2.2 =
      fc :: ((splitCell entropy churn.rows).2.2).map List.dropLast ∧
    (∀ r ∈ (splitCell entropy churn.rows).1,
      r.getLast? = r.get? (churn.columns.indexOf "Churn?")) ∧
    (∀ r ∈ (splitCell entropy churn.rows).2.1,
      r.getLast? = r.get? (churn.columns.indexOf "Churn?")) := by
  have hlen : churn.columns.length = fc.length + 1 := by
    rw [hcols]
    simp
  have hidx : churn.columns.indexOf "Churn?" = fc.length := by
    rw [hcols]
    exact indexOf_label hfc
  refine ⟨rfl, rfl, ?_, ?_, ?_⟩
  · simp only [splitCellFiles, toCsvLines, dropColumn, if_pos, List.singleton_append,
      hidx]
    congr 1
    · rw [hcols, eraseIdx_last_of_length (by simp)]
      simp
    · refine List.map_congr_left fun r hr => ?_
      have hmem := (splitCell_subset entropy churn.rows).2.2 r hr
      exact eraseIdx_last_of_length (by rw [hrows r hmem, hlen])
  · intro r hr
    have hmem := (splitCell_subset entropy churn.rows).1 r hr
    have hl : r.length = fc.length + 1 := by
      rw [hrows r hmem, hlen]
    rw [hidx, List.getLast?_eq_get?, hl]
    simp
  · intro r hr
    have hmem := (splitCell_subset entropy churn.rows).2.1 r hr
    have hl : r.length = fc.length + 1 := by
      rw [hrows r hmem, hlen]
    rw [hidx, List.getLast?_eq_get?, hl]
    simp

theorem csv_label_policy_witness :
    ("Churn?" ∉ (["Day Mins"] : List String)) ∧
    (splitCellFiles 0 ⟨["Day Mins", "Churn?"],
        [["10", "T"], ["20", "F"], ["30", "T"]]⟩).2.2 =
      ["Day Mins"] ::
        ((splitCell 0 [["10", "T"], ["20", "F"], ["30", "T"]]).2.2).map List.dropLast :=
  ⟨by decide,
    (csv_label_policy 0 ⟨["Day Mins", "Churn?"], [["10", "T"], ["20", "F"], ["30", "T"]]⟩
      ["Day Mins"] rfl (by decide) (by decide)).2.2.1⟩

/-! ## Pipeline model registration (notebook cells 18, 27 and 29) -/

/-- One entry of the `Containers` list of a `create_model` request. -/
structure ContainerDef where
  Image : String
  ModelDataUrl : String
  Environment : List (String × String)
deriving DecidableEq

/-- The `client.create_model(...)` request issued by cell 29. -/
structure CreateModelRequest where
  ModelName : String
  Containers : List ContainerDef
  ExecutionRoleArn : String
deriving DecidableEq

/-- The attributes of the fitted SKLearn preprocessing estimator that the
notebook reads: container image, fitted artifact location, uploaded code
location and script name, log level and region. -/
structure SKLearnEstimator where
  image_uri : String
  model_data : String
  submitDir : String
  scriptName : String
  logLevel : String
  region : String
deriving DecidableEq

/-- A model object returned by `estimator.create_model(env=...)`: per the
SDK semantics it reuses the estimator's container image and fitted model
artifact and attaches the given environment. -/
structure SKLearnModel where
  image_uri : String
  model_data : String
  env : List (String × String)
deriving DecidableEq

def createModelFromEstimator (est : SKLearnEstimator)
    (env : List (String × String)) : SKLearnModel :=
  { image_uri := est.image_uri, model_data := est.model_data, env := env }

/-- Cell 18: `sklearn_preprocessor.create_model(env={'TRANSFORM_MODE': 'feature-transform'})`. -/
def inferenceModel (pre : SKLearnEstimator) : SKLearnModel :=
  createModelFromEstimator pre [("TRANSFORM_MODE", "feature-transform")]

/-- Cell 27: `sklearn_preprocessor.create_model(env={'TRANSFORM_MODE': 'inverse-label-transform'})`. -/
def postProcessModel (pre : SKLearnEstimator) : SKLearnModel :=
  createModelFromEstimator pre [("TRANSFORM_MODE", "inverse-label-transform")]

/-- The attributes of the trained XGBoost estimator read by cell 29. -/
structure XgbEstimator where
  image_uri : String
  model_data : String
deriving DecidableEq

/-- Cell 29: the composite-model registration request, three containers in
the order preprocess, predict, postprocess, and a timestamped name. -/
def createModelCell (timestamp : String) (sklearnPreprocessor : SKLearnEstimator)
    (xgb : XgbEstimator) (role : String) : CreateModelRequest :=
  { ModelName := "QS-inference-pipeline-" ++ timestamp,
    Containers := [
      { Image := sklearnPreprocessor.image_uri,
        ModelDataUrl := sklearnPreprocessor.model_data,
        Environment := [
          ("SAGEMAKER_SUBMIT_DIRECTORY", sklearnPreprocessor.submitDir),
          ("TRANSFORM_MODE", "feature-transform"),
          ("SAGEMAKER_CONTAINER_LOG_LEVEL", sklearnPreprocessor.logLevel),
          ("SAGEMAKER_REGION", sklearnPreprocessor.region),
          ("SAGEMAKER_PROGRAM", sklearnPreprocessor.scriptName)] },
      { Image := xgb.image_uri,
        ModelDataUrl := xgb.model_data,
        Environment := [] },
      { Image := (postProcessModel sklearnPreprocessor).image_uri,
        ModelDataUrl := (postProcessModel sklearnPreprocessor).model_data,
        Environment := [
          ("SAGEMAKER_SUBMIT_DIRECTORY", sklearnPreprocessor.submitDir),
          ("TRANSFORM_MODE", "inverse-label-transform"),
          ("SAGEMAKER_CONTAINER_LOG_LEVEL", sklearnPreprocessor.logLevel),
          ("SAGEMAKER_REGION", sklearnPreprocessor.region),
          ("SAGEMAKER_PROGRAM", sklearnPreprocessor.scriptName)] }],
    ExecutionRoleArn := role }

theorem modelName_inj {t₁ t₂ : String}
    (h : "QS-inference-pipeline-" ++ t₁ = "QS-inference-pipeline-" ++ t₂) :
    t₁ = t₂ := by
  have hd := congrArg String.data h
  simp only [String.data_append] at hd
  exact String.ext (List.append_cancel_left hd)

/-- C5: each run of cell 29 issues exactly one registration request whose
container list has exactly three entries in the fixed order preprocess
(feature-transform environment), predict (the XGBoost image and artifact),
postprocess (inverse-label-transform environment), and whose model name is
the fixed literal plus the timestamp, so runs with distinct timestamps
register under distinct names instead of mutating an existing model. -/
theorem createModel_three_containers (ts : String) (pre : SKLearnEstimator)
    (xgb : XgbEstimator) (role : String) :
    (∃ c₀ c₁ c₂, (createModelCell ts pre xgb role).Containers = [c₀, c₁, c₂] ∧
      c₀.Image = pre.image_uri ∧
      c₀.Environment.lookup "TRANSFORM_MODE" = some "feature-transform" ∧
      c₁.Image = xgb.image_uri ∧
      c₁.ModelDataUrl = xgb.model_data ∧
      c₂.Environment.lookup "TRANSFORM_MODE" = some "inverse-label-transform") ∧
    (createModelCell ts pre xgb role).ModelName = "QS-inference-pipeline-" ++ ts ∧
    (∀ ts' : String, ts ≠ ts' →
      (createModelCell ts pre xgb role).ModelName ≠
        (createModelCell ts' pre xgb role).ModelName) := by
  refine ⟨⟨_, _, _, rfl, rfl, rfl, rfl, rfl, rfl⟩, rfl, ?_⟩
  intro ts' hne h
  exact hne (modelName_inj h)

/-- C9: the first (preprocess) and third (postprocess) containers of the
registered pipeline model use the same image and the same model-artifact
location (both come from the fitted SKLearn preprocessor), and their
environments agree at every key other than TRANSFORM_MODE, which is
"feature-transform" in the first and "inverse-label-transform" in the
third. -/
theorem pipeline_pre_post_share_artifact (ts : String) (pre : SKLearnEstimator)
    (xgb : XgbEstimator) (role : String) :
    ∃ c₀ c₁ c₂, (createModelCell ts pre xgb role).Containers = [c₀, c₁, c₂] ∧
      c₀.Image = c₂.Image ∧
      c₀.ModelDataUrl = c₂.ModelDataUrl ∧
      c₀.Environment.lookup "TRANSFORM_MODE" = some "feature-transform" ∧
      c₂.Environment.lookup "TRANSFORM_MODE" = some "inverse-label-transform" ∧
      ∀ k : String, k ≠ "TRANSFORM_MODE" →
        c₀.Environment.lookup k = c₂.Environment.lookup k := by
  refine ⟨_, _, _, rfl, rfl, rfl, rfl, rfl, ?_⟩
  intro k hk
  have hbeq : (k == "TRANSFORM_MODE") = false := by
    simp [hk]
  simp [List.lookup, hbeq]

/-! ## Workflow control flow (notebook cells 16-29): submissions and waits -/

/-- Observable orchestration events of a run.  `cleanup` is included so
that the absence of any rollback or cleanup step is expressible; the
notebook never emits it. -/
inductive Ev where
  | submit (job : String)
  | waitDone (job : String)
  | waitFailed (job : String)
  | readOutput (job : String)
  | cleanup (job : String)
  | register (modelName : String)
deriving DecidableEq

/-- Submit one external job and immediately block on it (`fit`, or
`transform` followed by `wait`): on success the continuation events
follow; on failure the SDK wait raises and the run ends at the failure
event. -/
def runJob (outcome : String → Bool) (j : String) (rest : List Ev) : List Ev :=
  Ev.submit j :: (if outcome j then Ev.waitDone j :: rest else [Ev.waitFailed j])

/-- The notebook's linear job sequence: the SKLearn preprocessing fit
(cell 16, whose fitted artifact is read to build the transformer), the
train batch transform (cell 18, whose output path
`preprocessed_train_path` is read after the wait), the validation batch
transform (cell 19), the XGBoost training fit (cell 25, whose artifact is
read by cell 29), and the final `create_model` registration (cell 29). -/
def workflow (outcome : String → Bool) : List Ev :=
  runJob outcome "sklearn-fit" (
    Ev.readOutput "sklearn-fit" ::
      runJob outcome "transform-train" (
        Ev.readOutput "transform-train" ::
          runJob outcome "transform-validation" (
            Ev.readOutput "transform-validation" ::
              runJob outcome "xgboost-train" (
                [Ev.readOutput "sklearn-fit", Ev.readOutput "xgboost-train",
                  Ev.register "QS-inference-pipeline"]))))

/-- Checks that every `submit` event is immediately followed by a wait
event (successful or failed) on the same job. -/
def submitsImmediatelyWaited : List Ev → Bool
  | [] => true
  | Ev.submit j :: rest =>
    (match rest with
      | Ev.waitDone j' :: _ => j == j'
      | Ev.waitFailed j' :: _ => j == j'
      | _ => false) && submitsImmediatelyWaited rest
  | _ :: rest => submitsImmediatelyWaited rest

def precededByAux (a b : Ev) : Bool → List Ev → Bool
  | _, [] => true
  | seen, e :: rest =>
    (if e == b then seen else true) && precededByAux a b (seen || e == a) rest

/-- Checks that every occurrence of `b` in the trace is strictly preceded
by an occurrence of `a`. -/
def precededBy (a b : Ev) (t : List Ev) : Bool := precededByAux a b false t

/-- Checks that every job submitted in the trace has its output read only
after its wait returned successfully. -/
def allReadsAfterWait (t : List Ev) : Bool :=
  t.all fun e =>
    match e with
    | Ev.submit j => precededBy (Ev.waitDone j) (Ev.readOutput j) t
    | _ => true

/-- C6: for every outcome of the external jobs, each job submission in the
workflow is immediately followed by a blocking wait on that same job, and
the validation batch-transform job is submitted only after the train
batch-transform's wait has returned successfully. -/
theorem workflow_sequential (outcome : String → Bool) :
    submitsImmediatelyWaited (workflow outcome) = true ∧
    precededBy (Ev.waitDone "transform-train") (Ev.submit "transform-validation")
      (workflow outcome) = true := by
  cases h1 : outcome "sklearn-fit" <;> cases h2 : outcome "transform-train" <;>
    cases h3 : outcome "transform-validation" <;> cases h4 : outcome "xgboost-train" <;>
    · simp only [workflow, runJob, h1, h2, h3, h4]
      decide

/-- C7: for every outcome, every job the workflow submits has its output
location read only after the wait on that job has returned successfully;
in particular the transformed train and validation paths are consumed only
after the corresponding transform's wait. -/
theorem workflow_read_after_wait (outcome : String → Bool) :
    allReadsAfterWait (workflow outcome) = true := by
  cases h1 : outcome "sklearn-fit" <;> cases h2 : outcome "transform-train" <;>
    cases h3 : outcome "transform-validation" <;> cases h4 : outcome "xgboost-train" <;>
    · simp only [workflow, runJob, h1, h2, h3, h4]
      decide

/-- C8: if an external job fails, the workflow halts at that failure: the
failure event is the last event of the trace, the failed job's output
location is never read, the failed job is submitted only once (no retry),
and no cleanup or rollback event ever occurs, leaving earlier outputs in
place. -/
theorem workflow_failure_halts (outcome : String → Bool) (j : String)
    (hfail : Ev.waitFailed j ∈ workflow outcome) :
    (workflow outcome).getLast? = some (Ev.waitFailed j) ∧
    Ev.readOutput j ∉ workflow outcome ∧
    (workflow outcome).countP (fun e => e == Ev.submit j) ≤ 1 ∧
    (∀ k : String, Ev.cleanup k ∉ workflow outcome) := by
  cases h1 : outcome "sklearn-fit" <;> cases h2 : outcome "transform-train" <;>
    cases h3 : outcome "transform-validation" <;> cases h4 : outcome "xgboost-train" <;>
    simp only [workflow, runJob, h1, h2, h3, h4] at hfail ⊢ <;>
    simp at hfail <;>
    subst hfail <;>
    exact ⟨by decide, by decide, by decide, fun k => by simp⟩

theorem workflow_failure_halts_witness :
    (Ev.waitFailed "transform-train" ∈
      workflow (fun j => !(j == "transform-train"))) ∧
    Ev.readOutput "transform-train" ∉
      workflow (fun j => !(j == "transform-train")) :=
  ⟨by decide,
    (workflow_failure_halts (fun j => !(j == "transform-train")) "transform-train"
      (by decide)).2.1⟩

/-! ## Test-partition non-interference (notebook cells 11-25) -/

/-- Object storage as a map from keys to CSV contents. -/
def Store : Type := String → Option (List (List String))

def emptyStore : Store := fun _ => none

/-- Model of `Bucket(bucket).Object(key).upload_file(...)`. -/
def putObject (st : Store) (key : String) (v : List (List String)) : Store :=
  fun k => if k = key then some v else st k

def rawtrainKey : String := "sagemaker/QS-xgboost-churn/rawtrain/train.csv"

def rawvalidationKey : String := "sagemaker/QS-xgboost-churn/rawvalidation/validation.csv"

def rawtestKey : String := "sagemaker/QS-xgboost-churn/rawtest/test.csv"

/-- Cell 11: upload the three partition files under their raw prefixes. -/
def uploadPartitions (train validation test : List (List String)) : Store :=
  putObject
    (putObject (putObject emptyStore rawtrainKey train) rawvalidationKey validation)
    rawtestKey test

/-- One data-bearing external call, with the input location it names and
the data that location holds at submission time. -/
structure JobSubmission where
  job : String
  inputKey : String
  inputData : Option (List (List String))
deriving DecidableEq

/-- The data-bearing job submissions of a run of cells 16-25, in order:
the preprocessing fit on rawtrain, the two batch transforms on rawtrain
and rawvalidation, and the two input channels of the XGBoost training job,
which consume the transformed outputs.  `transformF` abstracts the fitted
preprocessing transform applied by the batch-transform jobs.  The test
input `s3_input_test` (cell 13) is constructed but never submitted. -/
def pipelineJobInputs
    (transformF : Option (List (List String)) → Option (List (List String)))
    (train validation test : List (List String)) : List JobSubmission :=
  let st := uploadPartitions train validation test
  [⟨"sklearn-fit", rawtrainKey, st rawtrainKey⟩,
    ⟨"transform-train", rawtrainKey, st rawtrainKey⟩,
    ⟨"transform-validation", rawvalidationKey, st rawvalidationKey⟩,
    ⟨"xgboost-train-train-channel", "transformtrain-train-output",
      transformF (st rawtrainKey)⟩,
    ⟨"xgboost-train-validation-channel", "transformtrain-validation-output",
      transformF (st rawvalidationKey)⟩]

theorem store_get_put_same (st : Store) (k : String) (v : List (List String)) :
    putObject st k v k = some v := by
  simp [putObject]

theorem store_get_put_other (st : Store) (k : String) (v : List (List String))
    (k' : String) (h : k' ≠ k) : putObject st k v k' = st k' := by
  simp [putObject, h]

theorem uploadPartitions_rawtrain (train validation test : List (List String)) :
    uploadPartitions train validation test rawtrainKey = some train := by
  unfold uploadPartitions
  rw [store_get_put_other _ _ _ _ (by decide), store_get_put_other _ _ _ _ (by decide),
    store_get_put_same]

theorem uploadPartitions_rawvalidation (train validation test : List (List String)) :
    uploadPartitions train validation test rawvalidationKey = some validation := by
  unfold uploadPartitions
  rw [store_get_put_other _ _ _ _ (by decide), store_get_put_same]

/-- C10: the test partition never influences the trained model: two runs
that differ only in the contents of the test partition submit identical
inputs to the preprocessing fit, both batch-transform jobs and the
training job, and no submitted input names the rawtest storage key. -/
theorem test_partition_noninterference
    (transformF : Option (List (List String)) → Option (List (List String)))
    (train validation test₁ test₂ : List (List String)) :
    pipelineJobInputs transformF train validation test₁ =
      pipelineJobInputs transformF train validation test₂ ∧
    ∀ s ∈ pipelineJobInputs transformF train validation test₁,
      s.inputKey ≠ rawtestKey := by
  refine ⟨?_, ?_⟩
  · simp only [pipelineJobInputs, uploadPartitions_rawtrain,
      uploadPartitions_rawvalidation]
  · intro s hs
    simp only [pipelineJobInputs, uploadPartitions_rawtrain,
      uploadPartitions_rawvalidation, List.mem_cons, List.not_mem_nil,
      or_false] at hs
    rcases hs with rfl | rfl | rfl | rfl | rfl <;> (dsimp only; decide)

theorem createModel_three_containers_witness :
    (createModelCell "2024-01-01-00-00-00"
        ⟨"sk-img", "sk-data", "s3-code", "preprocessing.py", "20", "us-east-1"⟩
        ⟨"xgb-img", "xgb-data"⟩ "arn-role").ModelName =
      "QS-inference-pipeline-" ++ "2024-01-01-00-00-00" :=
  (createModel_three_containers "2024-01-01-00-00-00"
    ⟨"sk-img", "sk-data", "s3-code", "preprocessing.py", "20", "us-east-1"⟩
    ⟨"xgb-img", "xgb-data"⟩ "arn-role").2.1

theorem pipeline_pre_post_share_artifact_witness :
    ∃ c₀ c₁ c₂,
      (createModelCell "2024-01-01-00-00-01"
          ⟨"sk-img", "sk-data", "s3-code", "preprocessing.py", "20", "us-east-1"⟩
          ⟨"xgb-img", "xgb-data"⟩ "arn-role").Containers = [c₀, c₁, c₂] ∧
      c₀.Image = c₂.Image ∧
      c₀.ModelDataUrl = c₂.ModelDataUrl ∧
      c₀.Environment.lookup "TRANSFORM_MODE" = some "feature-transform" ∧
      c₂.Environment.lookup "TRANSFORM_MODE" = some "inverse-label-transform" ∧
      ∀ k : String, k ≠ "TRANSFORM_MODE" →
        c₀.Environment.lookup k = c₂.Environment.lookup k :=
  pipeline_pre_post_share_artifact "2024-01-01-00-00-01"
    ⟨"sk-img", "sk-data", "s3-code", "preprocessing.py", "20", "us-east-1"⟩
    ⟨"xgb-img", "xgb-data"⟩ "arn-role"

theorem test_partition_noninterference_witness :
    pipelineJobInputs id [["1", "a"]] [["2", "b"]] [["3", "c"]] =
      pipelineJobInputs id [["1", "a"]] [["2", "b"]] [["4", "d"]] ∧
    ∀ s ∈ pipelineJobInputs id [["1", "a"]] [["2", "b"]] [["3", "c"]],
      s.inputKey ≠ rawtestKey :=
  test_partition_noninterference id [["1", "a"]] [["2", "b"]] [["3", "c"]] [["4", "d"]]

end ChurnNotebook
